import Mathlib

/-!
Verification development for lum, a Markdown live-preview server
(Go sources: server.go, watcher.go, renderer.go, main.go, control.go).

The Go code is shallowly embedded: external I/O outcomes (file reads,
markdown conversion, watcher setup, filesystem events) are passed as
explicit parameters, and the process-wide mutable state (the `files`
registry, the index SSE client set, the set of running watcher
goroutines) is threaded as an explicit `ServerState` value.
-/

namespace Lum

/-! ## String helpers mirroring the Go standard library calls used by control.go -/

/-- ASCII whitespace test mirroring `unicode.IsSpace` for the ASCII range
(the control protocol is ASCII text). -/
def isSpaceChar (c : Char) : Bool :=
  c = ' ' || c = '\t' || c = '\n' || c = '\r' || c = '\x0b' || c = '\x0c'

/-- Mirror of Go `strings.TrimSpace` (restricted to ASCII whitespace). -/
def goTrimSpace (s : String) : String :=
  String.mk (((s.data.dropWhile isSpaceChar).reverse.dropWhile isSpaceChar).reverse)

/-- Split a character list at the first space, mirroring
`strings.SplitN(s, " ", 2)`: at most two fields, the second keeps any
further spaces. -/
def splitFirstSpace : List Char → (List Char × Option (List Char))
  | [] => ([], none)
  | c :: cs =>
    if c = ' ' then ([], some cs)
    else
      let r := splitFirstSpace cs
      (c :: r.1, r.2)

/-- Mirror of Go `strings.SplitN(s, " ", 2)` as used by
`handleControlCommand` (control.go): one or two fields. -/
def splitN2 (s : String) : List String :=
  match splitFirstSpace s.data with
  | (w, none) => [String.mk w]
  | (w, some rest) => [String.mk w, String.mk rest]

/-- First field of `splitN2`, i.e. the command keyword of a control line. -/
def firstToken (s : String) : String :=
  match splitN2 s with
  | [] => ""
  | w :: _ => w

/-- Mirror of Go `filepath.Base`: strip trailing slashes and keep the last
path element; empty path gives ".", all-slash path gives "/". -/
def baseName (p : String) : String :=
  if p = "" then "." else
  let cs := p.data.reverse.dropWhile (fun c => c = '/')
  if cs = [] then "/" else String.mk (cs.takeWhile (fun c => ¬ c = '/')).reverse

/-! ## Data model: FileState, the registry, SSE sinks (server.go lines 20-42) -/

/-- An SSE client channel (`chan string` in Go): a bounded buffer.
`capacity` is the channel's buffer size; `buffer` the messages queued. -/
structure Sink where
  capacity : Nat
  buffer : List String
deriving DecidableEq, Repr

/-- Go non-blocking send `select { case ch <- msg: default: }`
(server.go lines 366-371): append when the buffer has room, else drop. -/
def trySend (s : Sink) (msg : String) : Sink :=
  if s.buffer.length < s.capacity then { s with buffer := s.buffer ++ [msg] } else s

/-- `FileState` (server.go lines 20-28): per-file state. The `watcher`
handle is abstracted to the flag `hasWatcher`; locks are not modelled
(state is threaded sequentially). -/
structure FileState where
  path : String
  htmlContent : String
  sseClients : List Sink
  hasWatcher : Bool
deriving DecidableEq, Repr

/-- The process-wide mutable state of server.go: the `files` registry
(association list standing for the Go map, first binding wins), the
index-page SSE clients, and `detectors`, the (ghost) multiset of paths
for which a watcher goroutine was spawned by `startWatchingFile`. -/
structure ServerState where
  files : List (String × FileState)
  indexSSEClients : List Sink
  detectors : List String
deriving DecidableEq, Repr

/-- Registry lookup, `files[filePath]` on the Go map. -/
def lookupFile (st : ServerState) (p : String) : Option FileState :=
  (st.files.find? (fun e => e.1 = p)).map (fun e => e.2)

/-- Rendered HTML currently associated with a path, if tracked. -/
def lookupContent (st : ServerState) (p : String) : Option String :=
  (lookupFile st p).map (fun fs => fs.htmlContent)

/-- SSE sinks currently subscribed to a path, if tracked. -/
def lookupClients (st : ServerState) (p : String) : Option (List Sink) :=
  (lookupFile st p).map (fun fs => fs.sseClients)

/-! ## Notification hub (server.go notifyClients / notifyIndexClients) -/

/-- `notifyClients` (server.go lines 354-372): look the path up in the
registry; on a miss return at once; otherwise attempt a non-blocking
send of `message` to every subscribed sink. -/
def notifyClients (st : ServerState) (filePath message : String) : ServerState :=
  match lookupFile st filePath with
  | none => st
  | some _ =>
    { st with files := st.files.map (fun e =>
        if e.1 = filePath then
          (e.1, { e.2 with sseClients := e.2.sseClients.map (fun s => trySend s message) })
        else e) }

/-- `notifyIndexClients` (server.go lines 422-432): non-blocking send of
`message` to every index-page sink. -/
def notifyIndexClients (st : ServerState) (message : String) : ServerState :=
  { st with indexSSEClients := st.indexSSEClients.map (fun s => trySend s message) }

/-! ## Renderer adapter (renderer.go renderMarkdown) -/

/-- Outcome of `os.ReadFile` for one call: the bytes read, or a
not-exist error (`os.ErrNotExist`), or any other read error. -/
inductive ReadResult where
  | ok (content : String)
  | errNotExist
  | errOther
deriving DecidableEq, Repr

/-- Outcome of `md.Convert` for one call: the produced HTML or an error. -/
inductive ConvertResult where
  | ok (html : String)
  | err
deriving DecidableEq, Repr

/-- The error cases of `renderMarkdown` (renderer.go lines 35-62).
`readNotExist` is the wrapped `os.ErrNotExist`, the only case for which
`errors.Is(err, os.ErrNotExist)` holds in the watcher's retry loop. -/
inductive RenderErr where
  | notTracked
  | readNotExist
  | readOther
  | convertFailed
deriving DecidableEq, Repr

/-- `renderMarkdown` (renderer.go lines 35-62): look up the file state
(error if untracked), read the file (error propagated), convert
(error propagated), and only then overwrite `htmlContent`. The outcomes
of the two external calls are the parameters `rd` and `cv`. -/
def renderMarkdown (st : ServerState) (filePath : String)
    (rd : ReadResult) (cv : ConvertResult) : ServerState × Option RenderErr :=
  match lookupFile st filePath with
  | none => (st, some RenderErr.notTracked)
  | some _ =>
    match rd with
    | ReadResult.errNotExist => (st, some RenderErr.readNotExist)
    | ReadResult.errOther => (st, some RenderErr.readOther)
    | ReadResult.ok _ =>
      match cv with
      | ConvertResult.err => (st, some RenderErr.convertFailed)
      | ConvertResult.ok html =>
        ({ st with files := st.files.map (fun e =>
            if e.1 = filePath then (e.1, { e.2 with htmlContent := html }) else e) },
         none)

/-- Whether a `renderMarkdown` call with these external outcomes succeeds
on a tracked file: the read and the conversion both succeed. -/
def renderOk (rd : ReadResult) (cv : ConvertResult) : Bool :=
  match rd, cv with
  | ReadResult.ok _, ConvertResult.ok _ => true
  | _, _ => false

/-! ## Watch setup (watcher.go startWatchingFile, lines 15-52) -/

/-- The failure cases of `startWatchingFile` before its goroutine starts:
`fsnotify.NewWatcher`, the tracked-files lookup, `filepath.Abs`, and
`watcher.Add(watchDir)` can each fail. -/
inductive WatchErr where
  | newWatcherFailed
  | notTracked
  | absFailed
  | addDirFailed
deriving DecidableEq, Repr

/-- `startWatchingFile` (watcher.go lines 15-52), up to spawning the
event-loop goroutine: create the watcher (may fail), require the path to
be tracked, record the watcher handle in the file state, resolve the
absolute path (may fail), add the parent directory to the watcher (may
fail), then spawn the goroutine — recorded by appending to `detectors`.
The three external outcomes are the boolean parameters. -/
def startWatchingFile (st : ServerState) (filePath : String)
    (newWatcherOk absOk addDirOk : Bool) : ServerState × Option WatchErr :=
  if ¬ newWatcherOk then (st, some WatchErr.newWatcherFailed)
  else
    match lookupFile st filePath with
    | none => (st, some WatchErr.notTracked)
    | some _ =>
      let st1 : ServerState :=
        { st with files := st.files.map (fun e =>
            if e.1 = filePath then (e.1, { e.2 with hasWatcher := true }) else e) }
      if ¬ absOk then (st1, some WatchErr.absFailed)
      else if ¬ addDirOk then (st1, some WatchErr.addDirFailed)
      else ({ st1 with detectors := st1.detectors ++ [filePath] }, none)

/-! ## Registry add (server.go addFile, lines 62-98) -/

/-- The error cases of `addFile`: a wrapped render failure
("failed to render file: %w") or a wrapped watch-setup failure
("failed to start watching file: %w"). -/
inductive AddErr where
  | renderFailed (e : RenderErr)
  | watchFailed (e : WatchErr)
deriving DecidableEq, Repr

/-- The placeholder `FileState` inserted by `addFile` before rendering
(server.go lines 71-74). -/
def freshFileState (filePath : String) : FileState :=
  { path := filePath, htmlContent := "", sseClients := [], hasWatcher := false }

/-- Registry map deletion `delete(files, filePath)`. -/
def removeFile (st : ServerState) (filePath : String) : ServerState :=
  { st with files := st.files.filter (fun e => ¬ e.1 = filePath) }

/-- `addFile` (server.go lines 62-98): no-op success when the path is
already tracked; otherwise insert a placeholder entry, render (deleting
the entry and returning the wrapped error on failure), start the
watcher (likewise), and finally publish "reload" to the index clients.
`rd`, `cv` are the initial render's external outcomes and the three
booleans are the watch-setup outcomes. -/
def addFile (st : ServerState) (filePath : String)
    (rd : ReadResult) (cv : ConvertResult)
    (newWatcherOk absOk addDirOk : Bool) : ServerState × Option AddErr :=
  if (lookupFile st filePath).isSome then (st, none)
  else
    let st1 : ServerState :=
      { st with files := st.files ++ [(filePath, freshFileState filePath)] }
    match renderMarkdown st1 filePath rd cv with
    | (st2, some e) => (removeFile st2 filePath, some (AddErr.renderFailed e))
    | (st2, none) =>
      match startWatchingFile st2 filePath newWatcherOk absOk addDirOk with
      | (st3, some e) => (removeFile st3 filePath, some (AddErr.watchFailed e))
      | (st3, none) => (notifyIndexClients st3 "reload", none)

/-! ## Change detector event loop (watcher.go, goroutine at lines 55-117) -/

/-- Debounce window, watcher.go line 64: `100 * time.Millisecond`. -/
def debounceMs : Nat := 100

/-- Retry backoff, watcher.go line 98: `50 * time.Millisecond`. -/
def backoffMs : Nat := 50

/-- Retry bound, watcher.go line 91: `for range 10`. -/
def maxRenderAttempts : Nat := 10

/-- The retry loop of the watcher goroutine (watcher.go lines 90-102):
repeatedly call `renderMarkdown`; stop on success; on a not-exist error
sleep `backoffMs` and retry; stop on any other error. `attemptRes i`
gives the external outcomes of the i-th `renderMarkdown` call. Returns
the resulting state, the final value of `err` after the loop, the
number of render attempts made, and the list of sleep durations. -/
def retryRender (attemptRes : Nat → ReadResult × ConvertResult) (filePath : String)
    (st : ServerState) (i : Nat) :
    Nat → ServerState × Option RenderErr × Nat × List Nat
  | 0 => (st, none, 0, [])
  | fuel + 1 =>
    let (st1, e) := renderMarkdown st filePath (attemptRes i).1 (attemptRes i).2
    match e with
    | none => (st1, none, 1, [])
    | some e0 =>
      if e0 = RenderErr.readNotExist then
        let (st2, e2, a, sl) := retryRender attemptRes filePath st1 (i + 1) fuel
        (st2, if a = 0 then some e0 else e2, a + 1, backoffMs :: sl)
      else (st1, some e0, 1, [])

/-- The fsnotify operation bits carried by an event. -/
inductive FsOp where
  | write
  | create
  | rename
  | chmod
  | remove
deriving DecidableEq, Repr

/-- `event.Has(Write) || event.Has(Create) || event.Has(Rename)`
(watcher.go line 79). -/
def relevantOps (ops : List FsOp) : Bool :=
  ops.contains FsOp.write || ops.contains FsOp.create || ops.contains FsOp.rename

/-- One raw fsnotify event as seen by the watcher goroutine: the event
name, its operation bits, the wall-clock time (ms) at which the
goroutine processes it, and the external outcomes of the render
attempts the goroutine would make for it. -/
structure FsEvent where
  name : String
  ops : List FsOp
  time : Nat
  attemptRes : Nat → ReadResult × ConvertResult

/-- The watcher goroutine's per-file state: the server state it reads
and writes, and its local `lastReload` variable (watcher.go line 63;
`none` models the Go zero `time.Time`, which every wall-clock instant
exceeds by far more than the debounce window). `lastSuccess`,
`notified`, and `attempts` are ghost fields recording the time of the
last successful reload, the times at which "reload" was published for
this file, and the cumulative number of render attempts. -/
structure DetectorState where
  server : ServerState
  lastReload : Option Nat
  lastSuccess : Option Nat
  notified : List Nat
  attempts : Nat
deriving DecidableEq

/-- The debounce test of watcher.go lines 81-84: with `lastReload` still
at its zero value every event passes; otherwise the event is dropped
when `now.Sub(lastReload) < debounceDelay` (a negative Go duration
compares below the window exactly as truncated Nat subtraction gives 0). -/
def debounceDrops (lastReload : Option Nat) (now : Nat) : Bool :=
  match lastReload with
  | none => false
  | some t => now - t < debounceMs

/-- One iteration of the watcher goroutine's event loop
(watcher.go lines 68-109) for the file `filePath` with watched base name
`watchFileName`: ignore events for other names (line 74) and irrelevant
operations (line 79); drop the event inside the debounce window,
otherwise set `lastReload := now` (line 85); run the render retry loop;
on failure log and continue, on success publish "reload" to the file's
subscribers. -/
def processEvent (watchFileName filePath : String) (d : DetectorState) (e : FsEvent) :
    DetectorState :=
  if ¬ (baseName e.name = watchFileName) then d
  else if ¬ relevantOps e.ops then d
  else if debounceDrops d.lastReload e.time then d
  else
    let (st1, errFinal, a, _) :=
      retryRender e.attemptRes filePath d.server 0 maxRenderAttempts
    match errFinal with
    | some _ =>
      { d with server := st1, lastReload := some e.time, attempts := d.attempts + a }
    | none =>
      { d with
        server := notifyClients st1 filePath "reload",
        lastReload := some e.time,
        lastSuccess := some e.time,
        notified := d.notified ++ [e.time],
        attempts := d.attempts + a }

/-- The watcher goroutine folded over a list of raw events. -/
def processEvents (watchFileName filePath : String) (d : DetectorState)
    (es : List FsEvent) : DetectorState :=
  es.foldl (processEvent watchFileName filePath) d

/-! ## Control channel (control.go / src/unnamed/part_005, main.go) -/

/-- A single apostrophe character. -/
def quoteChar : Char := '\''

/-- Wrap a string in single quotes, as the control-channel error
messages do. -/
def quoted (s : String) : String :=
  String.mk (quoteChar :: s.data ++ [quoteChar])

/-- Response to a line whose keyword is recognized as ADD but whose path
argument is missing (pinned by control_test.go, "InvalidCommandFormat"
and "ADDCommandWithoutPath"). -/
def errMissingPath : String :=
  "ERROR invalid command: expected " ++ quoted "ADD <path>" ++ "\n"

/-- Response to a malformed line or unknown keyword (pinned by
control_test.go, "UnknownCommand"). -/
def errUnknownCommand : String :=
  "ERROR invalid command: expected " ++ quoted "ADD <path>" ++ " or " ++ quoted "STOP" ++ "\n"

/-- What `handleControlCommand` does with one received line: write one
response line back, or trigger process shutdown. -/
inductive ControlReply where
  | reply (line : String)
  | shutdown
deriving DecidableEq, Repr

/-- Modelled from the spec: the repository's current control-channel
server source is absent from src/ — src/unnamed/part_005 holds an
earlier revision of control.go whose `handleControlCommand` knows only
ADD, while main.go calls `dialSocket`/`setupLogFile` (defined nowhere in
src/) and control_test.go pins a handler that also accepts STOP and
distinguishes the two invalid-command messages. Spec 4.4: trim the
line; `STOP` triggers graceful shutdown; `ADD <path>` validates
existence then delegates to the registry add and answers
`OK <url>` / `ERROR <reason>`; a recognized ADD keyword with the
argument missing gets the specific invalid-command message, anything
else the generic one. The ADD branch below follows
src/unnamed/part_005 lines 93-127 verbatim (both revisions agree on
it); `fileExists` is the outcome of `os.Stat`, and the render/watch
parameters are forwarded to `addFile`. -/
def handleControlCommand (fileExists : String → Bool) (port : Nat)
    (rd : ReadResult) (cv : ConvertResult) (newWatcherOk absOk addDirOk : Bool)
    (st : ServerState) (rawLine : String) : ServerState × ControlReply :=
  let line := goTrimSpace rawLine
  if line = "STOP" then (st, ControlReply.shutdown)
  else
    match splitN2 line with
    | [cmd, path] =>
      if cmd = "ADD" then
        if ¬ fileExists path then
          (st, ControlReply.reply ("ERROR file does not exist: " ++ path ++ "\n"))
        else
          match addFile st path rd cv newWatcherOk absOk addDirOk with
          | (st1, some _) =>
            (st1, ControlReply.reply ("ERROR failed to add file" ++ "\n"))
          | (st1, none) =>
            (st1, ControlReply.reply
              ("OK http://localhost:" ++ toString port ++ "/?file=" ++ path ++ "\n"))
      else (st, ControlReply.reply errUnknownCommand)
    | _ =>
      if line = "ADD" then (st, ControlReply.reply errMissingPath)
      else (st, ControlReply.reply errUnknownCommand)

/-- The line `stopDaemon` (main.go lines 271-297) writes to the control
socket. -/
def stopDaemonMessage : String := "STOP\n"

/-- The primary instance's externally visible lifecycle state: whether
its listeners still accept connections, whether the control endpoint
artifact (socket file) is on disk, and whether the process has exited. -/
structure DaemonState where
  accepting : Bool
  socketFileExists : Bool
  exited : Bool
deriving DecidableEq, Repr

/-- Modelled from the spec: the daemon-side STOP shutdown sequence lives
in the current control.go, absent from src/. Spec 4.4: "STOP triggers
graceful shutdown of the whole process (closes listeners, removes the
endpoint artifact, exits)"; the signal path in main.go lines 312-319
(`cleanupSocket(); os.Exit(0)`) performs the same steps. -/
def shutdownDaemon (d : DaemonState) : DaemonState :=
  { d with accepting := false, socketFileExists := false, exited := true }

/-! ## Concrete states used by counterexamples and witnesses -/

/-- A registry tracking the single file /tmp/a.md with rendered content
and no subscribers. -/
def regA : ServerState :=
  { files := [("/tmp/a.md", { path := "/tmp/a.md", htmlContent := "<p>old</p>", sseClients := [], hasWatcher := true })],
    indexSSEClients := [], detectors := ["/tmp/a.md"] }

/-- The watcher goroutine's initial state over `regA`. -/
def detector0 : DetectorState :=
  { server := regA, lastReload := none, lastSuccess := none, notified := [], attempts := 0 }

/-- A write event at t=1000ms whose render attempts all fail with a
non-not-exist read error. -/
def eventRenderFails : FsEvent :=
  { name := "/tmp/a.md", ops := [FsOp.write], time := 1000,
    attemptRes := fun _ => (ReadResult.errOther, ConvertResult.err) }

/-- A write event at t=1050ms — 50ms after `eventRenderFails` — whose
render would succeed. -/
def eventSoonAfter : FsEvent :=
  { name := "/tmp/a.md", ops := [FsOp.write], time := 1050,
    attemptRes := fun _ => (ReadResult.ok "# x", ConvertResult.ok "<p>x</p>") }

/-- The empty registry. -/
def emptyState : ServerState := { files := [], indexSSEClients := [], detectors := [] }

/-- Two subscriber sinks: one with room for a message, one whose buffer
is full (capacity 0). -/
def twoSinks : List Sink := [{ capacity := 1, buffer := [] }, { capacity := 0, buffer := [] }]

/-- A registry tracking /tmp/a.md with the two subscribers of `twoSinks`. -/
def regB : ServerState :=
  { files := [("/tmp/a.md", { path := "/tmp/a.md", htmlContent := "<p>old</p>", sseClients := twoSinks, hasWatcher := true })],
    indexSSEClients := [], detectors := ["/tmp/a.md"] }

/-- The registry produced by a successful add of /tmp/a.md to the empty
registry. -/
def stOne : ServerState :=
  { files := [("/tmp/a.md", { path := "/tmp/a.md", htmlContent := "<h1>h</h1>", sseClients := [], hasWatcher := true })],
    indexSSEClients := [], detectors := ["/tmp/a.md"] }

/-! ## Helper lemmas on the registry association list -/

theorem lookupFile_files_none {st : ServerState} {p : String}
    (h : lookupFile st p = none) : st.files.find? (fun e => e.1 = p) = none := by
  unfold lookupFile at h
  exact Option.map_eq_none.mp h

theorem find?_append_singleton {files : List (String × FileState)} {p : String}
    (fs : FileState) (h : files.find? (fun e => e.1 = p) = none) :
    (files ++ [(p, fs)]).find? (fun e => e.1 = p) = some (p, fs) := by
  simp [List.find?_append, h]

theorem find?_filter_ne (files : List (String × FileState)) (p : String) :
    (files.filter (fun e => ¬ e.1 = p)).find? (fun e => e.1 = p) = none := by
  apply List.find?_eq_none.mpr
  intro x hx
  have := List.of_mem_filter hx
  simpa using this

theorem lookupFile_removeFile (st : ServerState) (p : String) :
    lookupFile (removeFile st p) p = none := by
  unfold lookupFile removeFile
  simp [find?_filter_ne]

theorem find?_map_update (files : List (String × FileState)) (p : String)
    (f : FileState → FileState) :
    (files.map (fun e => if e.1 = p then (e.1, f e.2) else e)).find? (fun e => e.1 = p)
      = (files.find? (fun e => e.1 = p)).map (fun e => (e.1, f e.2)) := by
  induction files with
  | nil => rfl
  | cons x xs ih =>
    by_cases h : x.1 = p
    · simp [h]
    · simp [h, ih]

theorem find?_map_update_ne (files : List (String × FileState)) (p q : String)
    (f : FileState → FileState) (hq : ¬ q = p) :
    (files.map (fun e => if e.1 = p then (e.1, f e.2) else e)).find? (fun e => e.1 = q)
      = files.find? (fun e => e.1 = q) := by
  induction files with
  | nil => rfl
  | cons x xs ih =>
    by_cases h : x.1 = p
    · have hxq : ¬ x.1 = q := by
        intro hc
        exact hq (hc ▸ h)
      rw [List.map_cons, if_pos h]
      rw [List.find?_cons_of_neg _ (by simpa using hxq),
        List.find?_cons_of_neg _ (by simpa using hxq), ih]
    · rw [List.map_cons, if_neg h]
      by_cases hx : x.1 = q
      · rw [List.find?_cons_of_pos _ (by simpa using hx),
          List.find?_cons_of_pos _ (by simpa using hx)]
      · rw [List.find?_cons_of_neg _ (by simpa using hx),
          List.find?_cons_of_neg _ (by simpa using hx), ih]

theorem filter_ne_eq_self {files : List (String × FileState)} {p : String}
    (h : files.find? (fun e => e.1 = p) = none) :
    files.filter (fun e => ¬ e.1 = p) = files := by
  apply List.filter_eq_self.mpr
  intro a ha
  have := List.find?_eq_none.mp h a ha
  simpa using this

theorem map_update_eq_self {files : List (String × FileState)} {p : String}
    (f : FileState → FileState)
    (h : files.find? (fun e => e.1 = p) = none) :
    files.map (fun e => if e.1 = p then (e.1, f e.2) else e) = files := by
  induction files with
  | nil => rfl
  | cons x xs ih =>
    have hx : ¬ x.1 = p := by
      have := List.find?_eq_none.mp h x (by simp)
      simpa using this
    have htail : xs.find? (fun e => e.1 = p) = none := by
      apply List.find?_eq_none.mpr
      intro y hy
      exact List.find?_eq_none.mp h y (by simp [hy])
    rw [List.map_cons, if_neg hx, ih htail]

theorem renderMarkdown_notExist {st : ServerState} {p : String} {fs : FileState}
    (h : lookupFile st p = some fs) (cv : ConvertResult) :
    renderMarkdown st p ReadResult.errNotExist cv = (st, some RenderErr.readNotExist) := by
  simp [renderMarkdown, h]

theorem renderMarkdown_readOther {st : ServerState} {p : String} {fs : FileState}
    (h : lookupFile st p = some fs) (cv : ConvertResult) :
    renderMarkdown st p ReadResult.errOther cv = (st, some RenderErr.readOther) := by
  simp [renderMarkdown, h]

theorem renderMarkdown_convertErr {st : ServerState} {p : String} {fs : FileState}
    (h : lookupFile st p = some fs) (c : String) :
    renderMarkdown st p (ReadResult.ok c) ConvertResult.err = (st, some RenderErr.convertFailed) := by
  simp [renderMarkdown, h]

theorem renderMarkdown_success {st : ServerState} {p : String} {fs : FileState}
    (h : lookupFile st p = some fs) (c html : String) :
    renderMarkdown st p (ReadResult.ok c) (ConvertResult.ok html)
      = ({ st with files := st.files.map (fun e =>
            if e.1 = p then (e.1, { e.2 with htmlContent := html }) else e) }, none) := by
  simp [renderMarkdown, h]

theorem startWatchingFile_noWatcher (st : ServerState) (p : String) (ab ad : Bool) :
    startWatchingFile st p false ab ad = (st, some WatchErr.newWatcherFailed) := by
  simp [startWatchingFile]

theorem startWatchingFile_absFailed {st : ServerState} {p : String} {fs : FileState}
    (h : lookupFile st p = some fs) (ad : Bool) :
    startWatchingFile st p true false ad
      = ({ st with files := st.files.map (fun e =>
            if e.1 = p then (e.1, { e.2 with hasWatcher := true }) else e) },
         some WatchErr.absFailed) := by
  simp [startWatchingFile, h]

theorem startWatchingFile_addDirFailed {st : ServerState} {p : String} {fs : FileState}
    (h : lookupFile st p = some fs) :
    startWatchingFile st p true true false
      = ({ st with files := st.files.map (fun e =>
            if e.1 = p then (e.1, { e.2 with hasWatcher := true }) else e) },
         some WatchErr.addDirFailed) := by
  simp [startWatchingFile, h]

theorem startWatchingFile_success {st : ServerState} {p : String} {fs : FileState}
    (h : lookupFile st p = some fs) :
    startWatchingFile st p true true true
      = ({ st with
            files := st.files.map (fun e =>
              if e.1 = p then (e.1, { e.2 with hasWatcher := true }) else e),
            detectors := st.detectors ++ [p] }, none) := by
  simp [startWatchingFile, h]

theorem lookupFile_insert {st : ServerState} {p : String}
    (h : lookupFile st p = none) (fs : FileState) :
    lookupFile { st with files := st.files ++ [(p, fs)] } p = some fs := by
  unfold lookupFile
  rw [show ({ st with files := st.files ++ [(p, fs)] } : ServerState).files
      = st.files ++ [(p, fs)] from rfl]
  rw [find?_append_singleton fs (lookupFile_files_none h)]
  rfl

theorem map_update_append_singleton {files : List (String × FileState)} {p : String}
    (fs : FileState) (f : FileState → FileState)
    (h : files.find? (fun e => e.1 = p) = none) :
    (files ++ [(p, fs)]).map (fun e => if e.1 = p then (e.1, f e.2) else e)
      = files ++ [(p, f fs)] := by
  rw [List.map_append, map_update_eq_self f h]
  simp

theorem removeFile_insert {st : ServerState} {p : String}
    (h : lookupFile st p = none) (fs : FileState) :
    removeFile { st with files := st.files ++ [(p, fs)] } p = st := by
  unfold removeFile
  rw [show ({ st with files := st.files ++ [(p, fs)] } : ServerState).files
      = st.files ++ [(p, fs)] from rfl]
  rw [List.filter_append, filter_ne_eq_self (lookupFile_files_none h)]
  simp

theorem addFile_render_fail {st : ServerState} {p : String}
    {rd : ReadResult} {cv : ConvertResult} (h : lookupFile st p = none)
    (hr : renderOk rd cv = false) (nw ab ad : Bool) :
    ∃ e, addFile st p rd cv nw ab ad = (st, some (AddErr.renderFailed e)) := by
  have h1 := lookupFile_insert h (freshFileState p)
  have hrm := removeFile_insert h (freshFileState p)
  cases rd with
  | errNotExist =>
    refine ⟨RenderErr.readNotExist, ?_⟩
    simp only [addFile, h, Option.isSome_none, Bool.false_eq_true, if_false,
      renderMarkdown_notExist h1, hrm]
  | errOther =>
    refine ⟨RenderErr.readOther, ?_⟩
    simp only [addFile, h, Option.isSome_none, Bool.false_eq_true, if_false,
      renderMarkdown_readOther h1, hrm]
  | ok c =>
    cases cv with
    | err =>
      refine ⟨RenderErr.convertFailed, ?_⟩
      simp only [addFile, h, Option.isSome_none, Bool.false_eq_true, if_false,
        renderMarkdown_convertErr h1, hrm]
    | ok html => simp [renderOk] at hr

theorem map_updC_append {files : List (String × FileState)} {p : String}
    (html : String) (fs : FileState)
    (h : files.find? (fun e => e.1 = p) = none) :
    (files ++ [(p, fs)]).map (fun e => if e.1 = p then (e.1, { e.2 with htmlContent := html }) else e)
      = files ++ [(p, { fs with htmlContent := html })] := by
  rw [List.map_append,
    show files.map (fun e => if e.1 = p then (e.1, { e.2 with htmlContent := html }) else e) = files
      from map_update_eq_self (fun x => { x with htmlContent := html }) h]
  simp

theorem map_updW_append {files : List (String × FileState)} {p : String}
    (fs : FileState)
    (h : files.find? (fun e => e.1 = p) = none) :
    (files ++ [(p, fs)]).map (fun e => if e.1 = p then (e.1, { e.2 with hasWatcher := true }) else e)
      = files ++ [(p, { fs with hasWatcher := true })] := by
  rw [List.map_append,
    show files.map (fun e => if e.1 = p then (e.1, { e.2 with hasWatcher := true }) else e) = files
      from map_update_eq_self (fun x => { x with hasWatcher := true }) h]
  simp

theorem addFile_watch_fail {st : ServerState} {p : String}
    (h : lookupFile st p = none) (c html : String) {nw ab ad : Bool}
    (hw : (nw && ab && ad) = false) :
    ∃ e, addFile st p (ReadResult.ok c) (ConvertResult.ok html) nw ab ad
      = (st, some (AddErr.watchFailed e)) := by
  have hf := lookupFile_files_none h
  have h1 := lookupFile_insert h (freshFileState p)
  cases nw with
  | false =>
    refine ⟨WatchErr.newWatcherFailed, ?_⟩
    simp only [addFile, h, Option.isSome_none, Bool.false_eq_true, if_false,
      renderMarkdown_success h1, startWatchingFile_noWatcher]
    rw [map_updC_append html (freshFileState p) hf]
    rw [removeFile_insert h _]
  | true =>
    cases ab with
    | false =>
      refine ⟨WatchErr.absFailed, ?_⟩
      simp only [addFile, h, Option.isSome_none, Bool.false_eq_true, if_false,
        renderMarkdown_success h1]
      rw [map_updC_append html (freshFileState p) hf]
      rw [startWatchingFile_absFailed (lookupFile_insert h _)]
      rw [map_updW_append _ hf]
      dsimp only
      rw [removeFile_insert h _]
    | true =>
      cases ad with
      | false =>
        refine ⟨WatchErr.addDirFailed, ?_⟩
        simp only [addFile, h, Option.isSome_none, Bool.false_eq_true, if_false,
          renderMarkdown_success h1]
        rw [map_updC_append html (freshFileState p) hf]
        rw [startWatchingFile_addDirFailed (lookupFile_insert h _)]
        rw [map_updW_append _ hf]
        dsimp only
        rw [removeFile_insert h _]
      | true => simp at hw

theorem addFile_success_eq {st : ServerState} {p : String}
    (h : lookupFile st p = none) (c html : String) :
    addFile st p (ReadResult.ok c) (ConvertResult.ok html) true true true
      = ({ files := st.files ++ [(p, { path := p, htmlContent := html, sseClients := [], hasWatcher := true })],
           indexSSEClients := st.indexSSEClients.map (fun s => trySend s "reload"),
           detectors := st.detectors ++ [p] }, none) := by
  have hf := lookupFile_files_none h
  have h1 := lookupFile_insert h (freshFileState p)
  simp only [addFile, h, Option.isSome_none, Bool.false_eq_true, if_false,
    renderMarkdown_success h1]
  rw [map_updC_append html (freshFileState p) hf]
  rw [startWatchingFile_success (lookupFile_insert h _)]
  rw [map_updW_append _ hf]
  dsimp only
  simp [notifyIndexClients, freshFileState]

/-- Claim C1: registry atomicity of Add. For a path not already tracked,
`addFile` fails exactly when the initial render or the watch setup
fails, and after a failed add the registry holds no entry for the path
(a `lookupFile` reports not-found); an entry exists afterwards exactly
when the initial render succeeded and the watch was established — no
partial registration survives a failed add. -/
theorem claim_C1_add_all_or_nothing (st : ServerState) (p : String)
    (rd : ReadResult) (cv : ConvertResult) (nw ab ad : Bool)
    (h : lookupFile st p = none) :
    ((addFile st p rd cv nw ab ad).2.isSome = true →
       lookupFile (addFile st p rd cv nw ab ad).1 p = none) ∧
    ((lookupFile (addFile st p rd cv nw ab ad).1 p).isSome = true
       ↔ (addFile st p rd cv nw ab ad).2 = none) ∧
    ((addFile st p rd cv nw ab ad).2 = none
       ↔ (renderOk rd cv && (nw && ab && ad)) = true) := by
  have hf := lookupFile_files_none h
  by_cases hr : renderOk rd cv = true
  · cases rd with
    | errNotExist => simp [renderOk] at hr
    | errOther => simp [renderOk] at hr
    | ok c =>
      cases cv with
      | err => simp [renderOk] at hr
      | ok html =>
        by_cases hw : (nw && ab && ad) = true
        · obtain ⟨hnw, hab, had⟩ : nw = true ∧ ab = true ∧ ad = true := by
            simpa [Bool.and_assoc] using hw
          subst hnw hab had
          rw [addFile_success_eq h c html]
          refine ⟨by simp, ?_, by simp [hr]⟩
          simp [lookupFile, find?_append_singleton _ hf]
        · obtain ⟨e, heq⟩ := addFile_watch_fail h c html (by simpa using hw)
          rw [heq]
          refine ⟨fun _ => h, ?_, ?_⟩
          · simp [h]
          · simp [renderOk, hw]
  · obtain ⟨e, heq⟩ := addFile_render_fail h (by simpa using hr) nw ab ad
    rw [heq]
    refine ⟨fun _ => h, ?_, ?_⟩
    · simp [h]
    · simp [Bool.not_eq_true] at hr
      simp [hr]

/-- Claim C8: idempotent add. After a successful `addFile` for an
untracked path with no running detector, a second `addFile` for the
same path returns success while leaving the state untouched, and the
registry holds exactly one entry and exactly one spawned change
detector for that path. -/
theorem claim_C8_add_idempotent (st st1 : ServerState) (p : String)
    (rd : ReadResult) (cv : ConvertResult) (nw ab ad : Bool)
    (rd2 : ReadResult) (cv2 : ConvertResult) (nw2 ab2 ad2 : Bool)
    (h : lookupFile st p = none) (hd : st.detectors.count p = 0)
    (hsucc : addFile st p rd cv nw ab ad = (st1, none)) :
    addFile st1 p rd2 cv2 nw2 ab2 ad2 = (st1, none) ∧
    st1.files.countP (fun e => e.1 = p) = 1 ∧
    st1.detectors.count p = 1 := by
  have hf := lookupFile_files_none h
  by_cases hr : renderOk rd cv = true
  · cases rd with
    | errNotExist => simp [renderOk] at hr
    | errOther => simp [renderOk] at hr
    | ok c =>
      cases cv with
      | err => simp [renderOk] at hr
      | ok html =>
        by_cases hw : (nw && ab && ad) = true
        · obtain ⟨hnw, hab, had⟩ : nw = true ∧ ab = true ∧ ad = true := by
            simpa [Bool.and_assoc] using hw
          subst hnw hab had
          rw [addFile_success_eq h c html] at hsucc
          have hst1 := (Prod.mk.injEq _ _ _ _).mp hsucc |>.1
          subst hst1
          have hc0 : st.files.countP (fun e => e.1 = p) = 0 :=
            List.countP_eq_zero.mpr (fun a ha => by simpa using List.find?_eq_none.mp hf a ha)
          refine ⟨?_, ?_, ?_⟩
          · simp [addFile, lookupFile, find?_append_singleton _ hf]
          · simp [List.countP_append, hc0]
          · simp [List.count_append, hd]
        · obtain ⟨e, heq⟩ := addFile_watch_fail h c html (by simpa using hw)
          rw [heq] at hsucc
          simp at hsucc
  · obtain ⟨e, heq⟩ := addFile_render_fail h (by simpa using hr) nw ab ad
    rw [heq] at hsucc
    simp at hsucc

/-- Claim C10: publishing to an unknown scope is a silent no-op. For a
path with no registry entry, `notifyClients` returns the state
unchanged: nothing is delivered, no error is raised, no state is
modified. -/
theorem claim_C10_publish_unknown_scope (st : ServerState) (p m : String)
    (h : lookupFile st p = none) : notifyClients st p m = st := by
  unfold notifyClients
  rw [h]

theorem lookupFile_entry {st : ServerState} {p : String} {fs : FileState}
    (h : lookupFile st p = some fs) :
    st.files.find? (fun e => e.1 = p) = some (p, fs) := by
  unfold lookupFile at h
  rcases hfind : st.files.find? (fun e => e.1 = p) with _ | e0
  · rw [hfind] at h
    simp at h
  · rw [hfind] at h
    have h1 : e0.1 = p := by simpa using List.find?_some hfind
    have h2 : e0.2 = fs := by simpa using h
    have h3 : e0 = (p, fs) := by
      cases e0
      simp_all
    rw [hfind, h3]

/-- Claim C7: non-blocking best-effort publish. For a tracked path,
`notifyClients` replaces each subscribed sink by its `trySend` image —
the message is appended exactly to the sinks whose buffer has room and
silently dropped for full ones — while entries for every other path are
untouched; with zero subscribers (per-file or index scope) the publish
is an observational no-op. The publisher is a total function: it never
blocks or errors. -/
theorem claim_C7_nonblocking_publish (st : ServerState) (p m : String) (fs : FileState)
    (h : lookupFile st p = some fs) :
    (lookupFile (notifyClients st p m) p
        = some { fs with sseClients := fs.sseClients.map (fun s => trySend s m) }) ∧
    (∀ q, ¬ q = p → lookupFile (notifyClients st p m) q = lookupFile st q) ∧
    (∀ s, s ∈ fs.sseClients →
        trySend s m = (if s.buffer.length < s.capacity
          then { s with buffer := s.buffer ++ [m] } else s)) ∧
    (fs.sseClients = [] → ∀ q, lookupFile (notifyClients st p m) q = lookupFile st q) ∧
    (st.indexSSEClients = [] → notifyIndexClients st m = st) ∧
    (∀ s, s ∈ st.indexSSEClients →
        trySend s m = (if s.buffer.length < s.capacity
          then { s with buffer := s.buffer ++ [m] } else s)) := by
  have hfind := lookupFile_entry h
  have hmap : (st.files.map (fun e =>
        if e.1 = p then (e.1, { e.2 with sseClients := e.2.sseClients.map (fun s => trySend s m) }) else e)).find?
        (fun e => e.1 = p)
      = (st.files.find? (fun e => e.1 = p)).map
          (fun e => (e.1, { e.2 with sseClients := e.2.sseClients.map (fun s => trySend s m) })) :=
    find?_map_update st.files p (fun x => { x with sseClients := x.sseClients.map (fun s => trySend s m) })
  have hself : lookupFile (notifyClients st p m) p
      = some { fs with sseClients := fs.sseClients.map (fun s => trySend s m) } := by
    unfold notifyClients
    rw [h]
    unfold lookupFile
    dsimp only
    rw [hmap, hfind]
    rfl
  have hother : ∀ q, ¬ q = p → lookupFile (notifyClients st p m) q = lookupFile st q := by
    intro q hq
    have hmapne : (st.files.map (fun e =>
          if e.1 = p then (e.1, { e.2 with sseClients := e.2.sseClients.map (fun s => trySend s m) }) else e)).find?
          (fun e => e.1 = q)
        = st.files.find? (fun e => e.1 = q) :=
      find?_map_update_ne st.files p q
        (fun x => { x with sseClients := x.sseClients.map (fun s => trySend s m) }) hq
    unfold notifyClients
    rw [h]
    unfold lookupFile
    dsimp only
    rw [hmapne]
  refine ⟨hself, hother, fun s _ => rfl, ?_, ?_, fun s _ => rfl⟩
  · intro hempty q
    by_cases hq : q = p
    · subst hq
      rw [hself, h, hempty]
      cases fs
      simp_all
    · exact hother q hq
  · intro hempty
    unfold notifyIndexClients
    rw [hempty]
    cases st
    simp_all

theorem renderMarkdown_fail_state (st : ServerState) (p : String)
    (rd : ReadResult) (cv : ConvertResult)
    (h : (renderMarkdown st p rd cv).2.isSome = true) :
    (renderMarkdown st p rd cv).1 = st := by
  unfold renderMarkdown at h ⊢
  cases hl : lookupFile st p <;> cases rd <;> cases cv <;> simp_all

theorem retryRender_attempts_pos (a : Nat → ReadResult × ConvertResult)
    (p : String) (st : ServerState) (i f : Nat) :
    0 < (retryRender a p st i (f + 1)).2.2.1 := by
  unfold retryRender
  rcases hrm : renderMarkdown st p (a i).1 (a i).2 with ⟨st1, err⟩
  dsimp only
  cases err with
  | none => simp
  | some e0 =>
    dsimp only
    by_cases he : e0 = RenderErr.readNotExist
    · rw [if_pos he]
      simp
    · rw [if_neg he]
      simp

theorem retryRender_fail_state (a : Nat → ReadResult × ConvertResult)
    (p : String) (st : ServerState) (i fuel : Nat)
    (h : (retryRender a p st i fuel).2.1.isSome = true) :
    (retryRender a p st i fuel).1 = st := by
  induction fuel generalizing st i with
  | zero => rfl
  | succ f ih =>
    unfold retryRender at h ⊢
    rcases hrm : renderMarkdown st p (a i).1 (a i).2 with ⟨st1, err⟩
    rw [hrm] at h
    dsimp only at h ⊢
    cases err with
    | none => simp at h
    | some e0 =>
      dsimp only at h ⊢
      have hst : st1 = st := by
        have hh := renderMarkdown_fail_state st p (a i).1 (a i).2 (by rw [hrm]; rfl)
        rw [hrm] at hh
        exact hh
      by_cases he : e0 = RenderErr.readNotExist
      · rw [if_pos he] at h ⊢
        rcases hrec : retryRender a p st1 (i + 1) f with ⟨st2, e2, a2, sl2⟩
        rw [hrec] at h
        dsimp only at h ⊢
        by_cases ha : a2 = 0
        · cases f with
          | zero =>
            obtain ⟨h1, h2, h3, h4⟩ :
                st1 = st2 ∧ (none : Option RenderErr) = e2 ∧ 0 = a2 ∧ sl2 = [] := by
              have hz := hrec
              rw [show retryRender a p st1 (i + 1) 0 = (st1, none, 0, []) from rfl] at hz
              simpa [Prod.ext_iff] using hz
            rw [← h1, hst]
          | succ f2 =>
            have hp := retryRender_attempts_pos a p st1 (i + 1) f2
            rw [hrec] at hp
            dsimp only at hp
            omega
        · rw [if_neg ha] at h
          have hihspec := ih st1 (i + 1)
          rw [hrec] at hihspec
          dsimp only at hihspec
          rw [hihspec h, hst]
      · rw [if_neg he] at h ⊢
        exact hst

theorem retryRender_bounded (a : Nat → ReadResult × ConvertResult) (p : String)
    (st : ServerState) (i fuel : Nat) :
    (retryRender a p st i fuel).2.2.1 ≤ fuel ∧
    (∀ d, d ∈ (retryRender a p st i fuel).2.2.2 → d = backoffMs) ∧
    (∀ j, j + 1 < (retryRender a p st i fuel).2.2.1 →
       (renderMarkdown st p (a (i + j)).1 (a (i + j)).2).2 = some RenderErr.readNotExist) ∧
    (retryRender a p st i fuel).2.2.1 ≤ (retryRender a p st i fuel).2.2.2.length + 1 := by
  induction fuel generalizing st i with
  | zero =>
    refine ⟨by simp [retryRender], by simp [retryRender], ?_, by simp [retryRender]⟩
    intro j hj
    simp [retryRender] at hj
  | succ f ih =>
    unfold retryRender
    rcases hrm : renderMarkdown st p (a i).1 (a i).2 with ⟨st1, err⟩
    dsimp only
    cases err with
    | none =>
      refine ⟨by simp, by simp, ?_, by simp⟩
      intro j hj
      dsimp only at hj
      omega
    | some e0 =>
      dsimp only
      have hst : st1 = st := by
        have hh := renderMarkdown_fail_state st p (a i).1 (a i).2 (by rw [hrm]; rfl)
        rw [hrm] at hh
        exact hh
      subst hst
      by_cases he : e0 = RenderErr.readNotExist
      · rw [if_pos he]
        rcases hrec : retryRender a p st1 (i + 1) f with ⟨st2, e2, a2, sl2⟩
        dsimp only
        have ihspec := ih st1 (i + 1)
        rw [hrec] at ihspec
        dsimp only at ihspec
        obtain ⟨ih1, ih2, ih3, ih4⟩ := ihspec
        refine ⟨by omega, ?_, ?_, by simp; omega⟩
        · intro dd hdd
          rcases List.mem_cons.mp hdd with hdd | hdd
          · exact hdd
          · exact ih2 dd hdd
        · intro j hj
          cases j with
          | zero =>
            rw [Nat.add_zero, hrm]
            rw [he]
          | succ k =>
            have hk : k + 1 < a2 := by omega
            have := ih3 k hk
            have hidx : i + (k + 1) = i + 1 + k := by omega
            rw [hidx]
            exact this
      · rw [if_neg he]
        refine ⟨by simp, by simp, ?_, by simp⟩
        intro j hj
        dsimp only at hj
        omega

/-- Claim C6: content preserved on failed reload. A failing
`renderMarkdown` call leaves the server state (hence the rendered HTML)
unchanged, and for a change event whose retry loop ultimately fails the
watcher leaves the server state, the tracked file's content, and the
published-notification log exactly as they were: no "reload" is sent. -/
theorem claim_C6_content_preserved_on_failure (wfn fp : String) (d : DetectorState) (e : FsEvent)
    (hfail : (retryRender e.attemptRes fp d.server 0 maxRenderAttempts).2.1.isSome = true) :
    (∀ st rd cv, (renderMarkdown st fp rd cv).2.isSome = true →
       (renderMarkdown st fp rd cv).1 = st) ∧
    (processEvent wfn fp d e).server = d.server ∧
    (processEvent wfn fp d e).notified = d.notified ∧
    lookupContent (processEvent wfn fp d e).server fp = lookupContent d.server fp := by
  have hmain : (processEvent wfn fp d e).server = d.server ∧
      (processEvent wfn fp d e).notified = d.notified := by
    unfold processEvent
    by_cases h1 : baseName e.name = wfn
    · rw [if_neg (not_not_intro h1)]
      by_cases h2 : relevantOps e.ops = true
      · rw [if_neg (by simp [h2])]
        by_cases h3 : debounceDrops d.lastReload e.time = true
        · rw [if_pos h3]
          exact ⟨rfl, rfl⟩
        · rw [if_neg h3]
          rcases hrr : retryRender e.attemptRes fp d.server 0 maxRenderAttempts
            with ⟨st1, err, a2, sl⟩
          rw [hrr] at hfail
          dsimp only
          cases err with
          | none => simp at hfail
          | some e0 =>
            dsimp only
            have hs : st1 = d.server := by
              have hh := retryRender_fail_state e.attemptRes fp d.server 0 maxRenderAttempts
                (by rw [hrr]; exact hfail)
              rw [hrr] at hh
              exact hh
            exact ⟨hs, rfl⟩
      · rw [if_pos (by simpa using h2)]
        exact ⟨rfl, rfl⟩
    · rw [if_pos h1]
      exact ⟨rfl, rfl⟩
  refine ⟨fun st rd cv h => renderMarkdown_fail_state st fp rd cv h, hmain.1, hmain.2, ?_⟩
  rw [hmain.1]

/-- Claim C4 (amended): for a relevant raw event for the tracked file,
the event is dropped if and only if the previous event that passed the
debounce check occurred less than the 100 ms window before it
(`lastReload`, watcher.go line 85); when the event passes the check,
`lastReload` is set to the event's time before rendering, regardless of
whether the reload then succeeds or fails. -/
theorem claim_C4_amended_debounce (wfn fp : String) (d : DetectorState) (e : FsEvent)
    (hname : baseName e.name = wfn) (hop : relevantOps e.ops = true) :
    (processEvent wfn fp d e = d ↔ debounceDrops d.lastReload e.time = true) ∧
    (debounceDrops d.lastReload e.time = false →
       (processEvent wfn fp d e).lastReload = some e.time) := by
  have hlr : debounceDrops d.lastReload e.time = false →
      (processEvent wfn fp d e).lastReload = some e.time := by
    intro h3
    unfold processEvent
    rw [if_neg (not_not_intro hname), if_neg (by simp [hop]), if_neg (by simp [h3])]
    rcases hrr : retryRender e.attemptRes fp d.server 0 maxRenderAttempts
      with ⟨st1, err, a2, sl⟩
    dsimp only
    cases err with
    | none => rfl
    | some e0 => rfl
  refine ⟨⟨?_, ?_⟩, hlr⟩
  · intro heq
    by_contra hdb
    have hdb' : debounceDrops d.lastReload e.time = false := by
      simpa using hdb
    have h1 := hlr hdb'
    rw [heq] at h1
    rw [h1] at hdb'
    simp [debounceDrops, debounceMs] at hdb'
  · intro h3
    unfold processEvent
    rw [if_neg (not_not_intro hname), if_neg (by simp [hop]), if_pos h3]

/-- Claim C4 counterexample: the claim \"an event is dropped iff the
last successful reload completed less than 100 ms before it; the
timestamp is recorded only upon a successful reload\" is false on the
code. Concretely: after `eventRenderFails` (t=1000 ms, render fails, so
no successful reload has ever completed) the relevant write event
`eventSoonAfter` at t=1050 ms is nevertheless dropped — processing it is
the identity — because watcher.go line 85 records `lastReload` before
the render attempt, not upon success. -/
theorem claim_C4_counterexample :
    baseName eventSoonAfter.name = "a.md" ∧
    relevantOps eventSoonAfter.ops = true ∧
    (processEvent "a.md" "/tmp/a.md" detector0 eventRenderFails).lastSuccess = none ∧
    processEvent "a.md" "/tmp/a.md"
        (processEvent "a.md" "/tmp/a.md" detector0 eventRenderFails) eventSoonAfter
      = processEvent "a.md" "/tmp/a.md" detector0 eventRenderFails := by
  refine ⟨by decide, by decide, by decide, by decide⟩

theorem splitN2_shapes (s : String) :
    (∃ w, splitN2 s = [w]) ∨ (∃ w r, splitN2 s = [w, r]) := by
  unfold splitN2
  rcases hsp : splitFirstSpace s.data with ⟨w, _ | rest⟩
  · left
    exact ⟨String.mk w, rfl⟩
  · right
    exact ⟨String.mk w, String.mk rest, rfl⟩

/-- Claim C2: STOP triggers graceful shutdown. Any received line that
trims to `STOP` (in particular the exact message `stopDaemonMessage`
that main.go's `stopDaemon` writes) makes the control handler trigger
shutdown, and the shutdown sequence stops accepting connections,
removes the control endpoint artifact, and terminates the process.
The dispatch is spec-modelled (current control.go absent from src/). -/
theorem claim_C2_stop_shutdown (fe : String → Bool) (port : Nat) (rd : ReadResult)
    (cv : ConvertResult) (nw ab ad : Bool) (st : ServerState) (rawLine : String)
    (dmn : DaemonState) (hstop : goTrimSpace rawLine = "STOP") :
    handleControlCommand fe port rd cv nw ab ad st rawLine = (st, ControlReply.shutdown) ∧
    (shutdownDaemon dmn).accepting = false ∧
    (shutdownDaemon dmn).socketFileExists = false ∧
    (shutdownDaemon dmn).exited = true := by
  refine ⟨?_, rfl, rfl, rfl⟩
  unfold handleControlCommand
  dsimp only
  rw [if_pos hstop]

/-- Claim C3: control-channel error-message distinction. A received
line that is neither `STOP` nor has first token `ADD` is answered with
the generic `ERROR invalid command: expected 'ADD <path>' or 'STOP'`
line, while a line whose trimmed form is exactly `ADD` (keyword
recognized, path missing) is answered with the more specific
`ERROR invalid command: expected 'ADD <path>'` line; the state is
unchanged either way. The dispatch is spec-modelled (current control.go
absent from src/), pinned by control_test.go. -/
theorem claim_C3_error_message_distinction (fe : String → Bool) (port : Nat) (rd : ReadResult)
    (cv : ConvertResult) (nw ab ad : Bool) (st : ServerState) (rawLine : String) :
    (¬ goTrimSpace rawLine = "STOP" → ¬ firstToken (goTrimSpace rawLine) = "ADD" →
       handleControlCommand fe port rd cv nw ab ad st rawLine
         = (st, ControlReply.reply errUnknownCommand)) ∧
    (goTrimSpace rawLine = "ADD" →
       handleControlCommand fe port rd cv nw ab ad st rawLine
         = (st, ControlReply.reply errMissingPath)) := by
  constructor
  · intro hstop htok
    unfold handleControlCommand
    dsimp only
    rw [if_neg hstop]
    rcases splitN2_shapes (goTrimSpace rawLine) with ⟨w, hw⟩ | ⟨w, r, hw⟩
    · rw [hw]
      dsimp only
      have hne : ¬ goTrimSpace rawLine = "ADD" := by
        intro hc
        apply htok
        unfold firstToken
        rw [hw]
        rw [hc] at hw
        rw [show splitN2 "ADD" = ["ADD"] from by decide] at hw
        exact (List.cons.inj hw.symm).1
      rw [if_neg hne]
    · rw [hw]
      dsimp only
      have hwne : ¬ w = "ADD" := by
        intro hc
        apply htok
        unfold firstToken
        rw [hw, hc]
      rw [if_neg hwne]
  · intro hadd
    unfold handleControlCommand
    dsimp only
    rw [hadd]
    rw [if_neg (by decide : ¬ ("ADD" : String) = "STOP")]
    rw [show splitN2 "ADD" = ["ADD"] from by decide]
    dsimp only
    rw [if_pos rfl]

/-- Claim C9: ADD responses. For a line parsing as `ADD p`: when `p`
does not exist on the filesystem the response is exactly
`ERROR file does not exist: p` and the registry is returned unchanged
(no file added); when `p` exists and the registry add succeeds the
response is exactly `OK http://localhost:<port>/?file=<p>`, embedding
the listening port and the file path as a query parameter. -/
theorem claim_C9_add_command_responses (fe : String → Bool) (port : Nat) (rd : ReadResult)
    (cv : ConvertResult) (nw ab ad : Bool) (st : ServerState) (rawLine p : String)
    (hsplit : splitN2 (goTrimSpace rawLine) = ["ADD", p]) :
    (fe p = false →
       handleControlCommand fe port rd cv nw ab ad st rawLine
         = (st, ControlReply.reply ("ERROR file does not exist: " ++ p ++ "\n"))) ∧
    (∀ st1, fe p = true → addFile st p rd cv nw ab ad = (st1, none) →
       handleControlCommand fe port rd cv nw ab ad st rawLine
         = (st1, ControlReply.reply
             ("OK http://localhost:" ++ toString port ++ "/?file=" ++ p ++ "\n"))) := by
  have hstop : ¬ goTrimSpace rawLine = "STOP" := by
    intro hc
    rw [hc] at hsplit
    rw [show splitN2 "STOP" = ["STOP"] from by decide] at hsplit
    have h1 := (List.cons.inj hsplit).1
    exact absurd h1 (by decide)
  constructor
  · intro hfe
    unfold handleControlCommand
    dsimp only
    rw [if_neg hstop, hsplit]
    dsimp only
    rw [if_pos rfl, if_pos (by simp [hfe])]
  · intro st1 hfe hadd
    unfold handleControlCommand
    dsimp only
    rw [if_neg hstop, hsplit]
    dsimp only
    rw [if_pos rfl, if_neg (by simp [hfe]), hadd]

/-- Claim C5: bounded existence-retry. The watcher's retry loop
(`retryRender`, invoked by `processEvent` with fuel
`maxRenderAttempts`) makes at most 10 render attempts; every backoff
sleep lasts exactly 50 ms; every attempt that was followed by a retry
had failed with the file-not-exist error (so any other render failure
stops the loop immediately, with no further attempts); and there is a
backoff sleep between consecutive attempts. -/
theorem claim_C5_bounded_retry (a : Nat → ReadResult × ConvertResult) (p : String)
    (st : ServerState) (i : Nat) :
    maxRenderAttempts = 10 ∧ backoffMs = 50 ∧
    (retryRender a p st i maxRenderAttempts).2.2.1 ≤ 10 ∧
    (∀ d, d ∈ (retryRender a p st i maxRenderAttempts).2.2.2 → d = 50) ∧
    (∀ j, j + 1 < (retryRender a p st i maxRenderAttempts).2.2.1 →
       (renderMarkdown st p (a (i + j)).1 (a (i + j)).2).2 = some RenderErr.readNotExist) ∧
    (retryRender a p st i maxRenderAttempts).2.2.1
      ≤ (retryRender a p st i maxRenderAttempts).2.2.2.length + 1 := by
  obtain ⟨h1, h2, h3, h4⟩ := retryRender_bounded a p st i maxRenderAttempts
  exact ⟨rfl, rfl, h1, h2, h3, h4⟩


/-! ## Witnesses: the claim theorems applied at concrete inputs -/

/-- Witness for claim C1: a failed add (read error) of /tmp/a.md to the
empty registry leaves no entry behind. -/
theorem claim_C1_add_all_or_nothing_witness :
    lookupFile (addFile emptyState "/tmp/a.md" ReadResult.errNotExist ConvertResult.err true true true).1 "/tmp/a.md" = none :=
  (claim_C1_add_all_or_nothing emptyState "/tmp/a.md" ReadResult.errNotExist ConvertResult.err
    true true true (by decide)).1 (by decide)

/-- Witness for claim C8: after successfully adding /tmp/a.md to the
empty registry, a second add is a no-op success and the registry holds
exactly one entry and one detector for it. -/
theorem claim_C8_add_idempotent_witness :
    addFile stOne "/tmp/a.md" ReadResult.errOther ConvertResult.err false false false = (stOne, none) ∧
    stOne.files.countP (fun e => e.1 = "/tmp/a.md") = 1 ∧
    stOne.detectors.count "/tmp/a.md" = 1 :=
  claim_C8_add_idempotent emptyState stOne "/tmp/a.md"
    (ReadResult.ok "# h") (ConvertResult.ok "<h1>h</h1>") true true true
    ReadResult.errOther ConvertResult.err false false false
    (by decide) (by decide) (by decide)

/-- Witness for claim C10: notifying an untracked path leaves the state
unchanged. -/
theorem claim_C10_publish_unknown_scope_witness :
    notifyClients regA "/not-tracked.md" "reload" = regA :=
  claim_C10_publish_unknown_scope regA "/not-tracked.md" "reload" (by decide)

/-- Witness for claim C7: publishing "reload" to /tmp/a.md delivers to
the sink with room and silently drops for the full one. -/
theorem claim_C7_nonblocking_publish_witness :
    lookupFile (notifyClients regB "/tmp/a.md" "reload") "/tmp/a.md"
      = some { path := "/tmp/a.md", htmlContent := "<p>old</p>",
               sseClients := [{ capacity := 1, buffer := ["reload"] }, { capacity := 0, buffer := [] }],
               hasWatcher := true } :=
  (claim_C7_nonblocking_publish regB "/tmp/a.md" "reload"
    { path := "/tmp/a.md", htmlContent := "<p>old</p>", sseClients := twoSinks, hasWatcher := true }
    (by decide)).1

/-- Witness for claim C6: a change event whose render fails leaves the
server state and the notification log untouched. -/
theorem claim_C6_content_preserved_witness :
    (processEvent "a.md" "/tmp/a.md" detector0 eventRenderFails).server = detector0.server ∧
    (processEvent "a.md" "/tmp/a.md" detector0 eventRenderFails).notified = detector0.notified :=
  ⟨(claim_C6_content_preserved_on_failure "a.md" "/tmp/a.md" detector0 eventRenderFails (by decide)).2.1,
   (claim_C6_content_preserved_on_failure "a.md" "/tmp/a.md" detector0 eventRenderFails (by decide)).2.2.1⟩

/-- Witness for claim C5: with every attempt failing as not-exist, the
retry loop makes at most 10 attempts. -/
theorem claim_C5_bounded_retry_witness :
    (retryRender (fun _ => (ReadResult.errNotExist, ConvertResult.err)) "/tmp/a.md" regA 0 maxRenderAttempts).2.2.1 ≤ 10 :=
  (claim_C5_bounded_retry (fun _ => (ReadResult.errNotExist, ConvertResult.err)) "/tmp/a.md" regA 0).2.2.1

/-- Witness for claim C4 (amended): the failed-render event at t=1000 ms
still records the debounce timestamp 1000. -/
theorem claim_C4_amended_debounce_witness :
    (processEvent "a.md" "/tmp/a.md" detector0 eventRenderFails).lastReload = some 1000 :=
  (claim_C4_amended_debounce "a.md" "/tmp/a.md" detector0 eventRenderFails (by decide) (by decide)).2 (by decide)

/-- Witness for claim C2: the exact `STOP` message written by
`stopDaemon` triggers shutdown, which clears the endpoint artifact. -/
theorem claim_C2_stop_shutdown_witness :
    handleControlCommand (fun _ => false) 6333 ReadResult.errOther ConvertResult.err true true true emptyState stopDaemonMessage
      = (emptyState, ControlReply.shutdown) ∧
    (shutdownDaemon { accepting := true, socketFileExists := true, exited := false }).accepting = false ∧
    (shutdownDaemon { accepting := true, socketFileExists := true, exited := false }).socketFileExists = false ∧
    (shutdownDaemon { accepting := true, socketFileExists := true, exited := false }).exited = true :=
  claim_C2_stop_shutdown (fun _ => false) 6333 ReadResult.errOther ConvertResult.err true true true
    emptyState stopDaemonMessage { accepting := true, socketFileExists := true, exited := false } (by decide)

/-- Witness for claim C3: an unknown keyword gets the generic message,
a bare ADD the specific one. -/
theorem claim_C3_error_message_distinction_witness :
    handleControlCommand (fun _ => false) 6333 ReadResult.errOther ConvertResult.err true true true emptyState "UNKNOWN /path\n"
      = (emptyState, ControlReply.reply errUnknownCommand) ∧
    handleControlCommand (fun _ => false) 6333 ReadResult.errOther ConvertResult.err true true true emptyState "ADD\n"
      = (emptyState, ControlReply.reply errMissingPath) :=
  ⟨(claim_C3_error_message_distinction (fun _ => false) 6333 ReadResult.errOther ConvertResult.err
      true true true emptyState "UNKNOWN /path\n").1 (by decide) (by decide),
   (claim_C3_error_message_distinction (fun _ => false) 6333 ReadResult.errOther ConvertResult.err
      true true true emptyState "ADD\n").2 (by decide)⟩

/-- Witness for claim C9: `ADD /does/not/exist` is answered with exactly
the not-exist error line and the state is unchanged. -/
theorem claim_C9_add_command_responses_witness :
    handleControlCommand (fun _ => false) 6333 ReadResult.errOther ConvertResult.err true true true emptyState "ADD /does/not/exist\n"
      = (emptyState, ControlReply.reply "ERROR file does not exist: /does/not/exist\n") :=
  (claim_C9_add_command_responses (fun _ => false) 6333 ReadResult.errOther ConvertResult.err
    true true true emptyState "ADD /does/not/exist\n" "/does/not/exist" (by decide)).1 (by decide)

end Lum
